import Mathlib

/-!
Verification of the fertilizer recommendation engine of the AgriThesis
repository (src/app/utils/fertilizer_quantity.py and
src/app/utils/data_processing.py), shallowly embedded over the rationals.
Python floats are modelled as rationals; the Python built-in round, which
rounds half to even, is modelled exactly by pyRound1.
-/

namespace AgriThesis

/-- The Python built-in round of a rational to the nearest integer:
round half to even. -/
def pyRoundInt (q : ℚ) : ℤ :=
  if Int.fract q = 1/2 then (if 2 ∣ ⌊q⌋ then ⌊q⌋ else ⌊q⌋ + 1) else round q

/-- The Python expression round(q, 1). -/
def pyRound1 (q : ℚ) : ℚ := (pyRoundInt (10 * q) : ℚ) / 10

theorem abs_pyRoundInt_sub (q : ℚ) : |(pyRoundInt q : ℚ) - q| ≤ 1/2 := by
  unfold pyRoundInt
  split_ifs with h h2
  · have hq : q = (⌊q⌋ : ℚ) + 1/2 := by
      have hf := Int.fract_add_floor q
      linarith [hf, h]
    rw [abs_le]
    constructor <;> linarith
  · have hq : q = (⌊q⌋ : ℚ) + 1/2 := by
      have hf := Int.fract_add_floor q
      linarith [hf, h]
    push_cast
    rw [abs_le]
    constructor <;> linarith
  · rw [abs_sub_comm]
    exact abs_sub_round q

theorem abs_pyRound1_sub (q : ℚ) : |pyRound1 q - q| ≤ 1/20 := by
  unfold pyRound1
  have h := abs_pyRoundInt_sub (10 * q)
  rw [show (pyRoundInt (10 * q) : ℚ) / 10 - q = ((pyRoundInt (10 * q) : ℚ) - 10 * q) / 10 by
    ring]
  rw [abs_div]
  rw [show |(10 : ℚ)| = 10 by norm_num]
  linarith

theorem pyRoundInt_eq_of (q : ℚ) (n : ℤ) (h1 : (n : ℚ) - 1/2 < q) (h2 : q < (n : ℚ) + 1/2) :
    pyRoundInt q = n := by
  have hfr : Int.fract q ≠ 1/2 := by
    intro hf
    have hq : q = (⌊q⌋ : ℚ) + 1/2 := by
      have hfl := Int.fract_add_floor q
      linarith [hfl, hf]
    have ha : (n : ℚ) - 1 < (⌊q⌋ : ℚ) := by linarith
    have hb : (⌊q⌋ : ℚ) < n := by linarith
    have ha2 : n - 1 < ⌊q⌋ := by exact_mod_cast ha
    have hb2 : ⌊q⌋ < n := by exact_mod_cast hb
    omega
  unfold pyRoundInt
  rw [if_neg hfr, round_eq, Int.floor_eq_iff]
  constructor
  · linarith
  · linarith

/-- Evaluation rule for pyRound1 away from ties. -/
theorem pyRound1_eq_of (q : ℚ) (n : ℤ) (r : ℚ) (h1 : (n : ℚ) - 1/2 < 10 * q)
    (h2 : 10 * q < (n : ℚ) + 1/2) (h3 : (n : ℚ) / 10 = r) : pyRound1 q = r := by
  unfold pyRound1
  rw [pyRoundInt_eq_of (10 * q) n h1 h2, h3]

/-- Evaluation rule for pyRound1 at a tie whose floor is even: round half to even
rounds down. -/
theorem pyRound1_tie_even (q : ℚ) (m : ℤ) (r : ℚ) (h : 10 * q = 2 * (m : ℚ) + 1/2)
    (h2 : 2 * (m : ℚ) / 10 = r) : pyRound1 q = r := by
  have hq : 10 * q = ((2 * m : ℤ) : ℚ) + 1/2 := by
    rw [h]
    push_cast
    ring
  have hfr : Int.fract (10 * q) = 1/2 := by
    rw [hq, Int.fract_int_add, Int.fract_eq_self.mpr ⟨by norm_num, by norm_num⟩]
  have hfl : ⌊10 * q⌋ = 2 * m := by
    rw [hq, Int.floor_int_add, show ⌊(1/2 : ℚ)⌋ = 0 from by norm_num, add_zero]
  unfold pyRound1 pyRoundInt
  rw [if_pos hfr, if_pos (by rw [hfl]; exact ⟨m, rfl⟩), hfl, ← h2]
  push_cast
  ring

/-- Python substring check helper: does the second list start with the first. -/
def leadMatch : List Char → List Char → Bool
  | [], _ => true
  | _ :: _, [] => false
  | a :: as, b :: bs => a == b && leadMatch as bs

/-- Python substring check helper: does the first list occur inside the second. -/
def subMatch (n : List Char) : List Char → Bool
  | [] => n.isEmpty
  | h :: hs => leadMatch n (h :: hs) || subMatch n hs

/-- The Python expression needle in haystack on strings. -/
def pyIn (needle haystack : String) : Bool := subMatch needle.data haystack.data

/-- The NutrientDeficit mapping of the source: keys N, P, P2O5, K, K2O of the
deficit dictionary built by calculate_npk_deficit_from_category. -/
structure Deficit where
  N : ℚ
  P : ℚ
  P2O5 : ℚ
  K : ℚ
  K2O : ℚ

/-- Conversion factor P_TO_P2O5 of fertilizer_quantity.py. -/
def P_TO_P2O5 : ℚ := 2.29

/-- Conversion factor K_TO_K2O of fertilizer_quantity.py. -/
def K_TO_K2O : ℚ := 1.20

/-- Per nutrient deficit rule of calculate_npk_deficit_from_category: full target
below the low threshold, half target between low and medium, a tenth of the
target otherwise. -/
def nutrientDeficit (low med target value : ℚ) : ℚ :=
  if value < low then target
  else if value < med then target * 0.5
  else target * 0.1

/-- Embedding of calculate_npk_deficit_from_category (fertilizer_quantity.py,
lines 52 to 88) with the thresholds of NPK_THRESHOLDS and the targets of
PH_MAIZE_TARGETS inlined, applied to the three entries N, P, K of the input
dictionary. -/
def calculate_npk_deficit_from_category (n p k : ℚ) : Deficit :=
  let dN := nutrientDeficit 80 140 120 n
  let dP := nutrientDeficit 15 30 60 p
  let dK := nutrientDeficit 80 150 60 k
  { N := dN, P := dP, P2O5 := dP * P_TO_P2O5, K := dK, K2O := dK * K_TO_K2O }

/-- Embedding of adjust_for_soil_conditions (fertilizer_quantity.py, lines 90
to 126). The branch for rainfall below 500 is a pass in the source and changes
nothing. -/
def adjust_for_soil_conditions (d : Deficit) (ph rainfall : ℚ) : Deficit :=
  let d1 :=
    if ph < 5.5 then { d with P2O5 := d.P2O5 * 1.3 }
    else if ph > 7.5 then { d with P2O5 := d.P2O5 * 1.25 }
    else d
  if rainfall > 1200 then { d1 with N := d1.N * 1.2 } else d1

/-- One row of the FERTILIZER_COMPOSITIONS table: N, P2O5 and K2O percentages. -/
structure Comp where
  N : ℚ
  P : ℚ
  K : ℚ

/-- The FERTILIZER_COMPOSITIONS dictionary of fertilizer_quantity.py, lines 34
to 43, as a lookup by product name. Only the eight listed keys are ever looked
up by the source. -/
def FERTILIZER_COMPOSITIONS (name : String) : Comp :=
  if name = "Urea" then ⟨46, 0, 0⟩
  else if name = "Ammonium Sulfate" then ⟨21, 0, 0⟩
  else if name = "Ammonium Phosphate (16-20-0)" then ⟨16, 20, 0⟩
  else if name = "Complete Fertilizer (14-14-14)" then ⟨14, 14, 14⟩
  else if name = "Complete Fertilizer (16-16-16)" then ⟨16, 16, 16⟩
  else if name = "Muriate of Potash (0-0-60)" then ⟨0, 0, 60⟩
  else if name = "Single Superphosphate" then ⟨0, 18, 0⟩
  else if name = "Triple Superphosphate" then ⟨0, 46, 0⟩
  else ⟨0, 0, 0⟩

/-- A fertilizer dose: product name and quantity in kg per hectare. An empty
name with quantity zero stands for the initialized, unused secondary slot of
the source. -/
structure Dose where
  name : String
  quantity : ℚ

/-- The branch structure of get_fertilizer_quantities (fertilizer_quantity.py,
lines 152 to 238) that picks the primary product, its unrounded quantity, and
the (already rounded) secondary dose. The three deficits read are the entries
N, P2O5 and K2O of the adjusted deficit dictionary. -/
def selectFertilizer (d : Deficit) (ft : String) : String × ℚ × Dose :=
  let n_deficit := d.N
  let p_deficit := d.P2O5
  let k_deficit := d.K2O
  if pyIn "NPK-rich" ft ∨ pyIn "Complete Fertilizer" ft then
    if n_deficit ≥ p_deficit ∧ n_deficit ≥ k_deficit then
      let primary := "Complete Fertilizer (16-16-16)"
      let comp := FERTILIZER_COMPOSITIONS primary
      let quantity := (p_deficit / comp.P) * 100
      let remaining_n := n_deficit - (quantity * comp.N / 100)
      if remaining_n > 10 then
        let sec_quantity := (remaining_n / (FERTILIZER_COMPOSITIONS "Urea").N) * 100
        (primary, quantity, ⟨"Urea", pyRound1 sec_quantity⟩)
      else
        (primary, quantity, ⟨"", 0⟩)
    else
      let primary := "Complete Fertilizer (14-14-14)"
      let comp := FERTILIZER_COMPOSITIONS primary
      let divisor :=
        max (if n_deficit ≠ 0 then comp.N / n_deficit else 0)
          (max (if p_deficit ≠ 0 then comp.P / p_deficit else 0)
            (if k_deficit ≠ 0 then comp.K / k_deficit else 0))
      let quantity := if divisor ≠ 0 then (1 / divisor) * 100 else 0
      (primary, quantity, ⟨"", 0⟩)
  else if pyIn "Nitrogen-rich" ft then
    let primary := "Urea"
    let quantity := (n_deficit / (FERTILIZER_COMPOSITIONS primary).N) * 100
    if p_deficit > 10 then
      let sec_quantity := (p_deficit / (FERTILIZER_COMPOSITIONS "Single Superphosphate").P) * 100
      (primary, quantity, ⟨"Single Superphosphate", pyRound1 sec_quantity⟩)
    else
      (primary, quantity, ⟨"", 0⟩)
  else if pyIn "Phosphorus-rich" ft then
    let primary := "Triple Superphosphate"
    let quantity := (p_deficit / (FERTILIZER_COMPOSITIONS primary).P) * 100
    if n_deficit > 10 then
      let sec_quantity := (n_deficit / (FERTILIZER_COMPOSITIONS "Urea").N) * 100
      (primary, quantity, ⟨"Urea", pyRound1 sec_quantity⟩)
    else
      (primary, quantity, ⟨"", 0⟩)
  else if pyIn "Potassium-rich" ft then
    let primary := "Muriate of Potash (0-0-60)"
    let quantity := (k_deficit / (FERTILIZER_COMPOSITIONS primary).K) * 100
    if n_deficit > 10 then
      let sec_quantity := (n_deficit / (FERTILIZER_COMPOSITIONS "Urea").N) * 100
      (primary, quantity, ⟨"Urea", pyRound1 sec_quantity⟩)
    else
      (primary, quantity, ⟨"", 0⟩)
  else if pyIn "NP Fertilizer" ft then
    let primary := "Ammonium Phosphate (16-20-0)"
    let comp := FERTILIZER_COMPOSITIONS primary
    let quantity := (p_deficit / comp.P) * 100
    let remaining_n := n_deficit - (quantity * comp.N / 100)
    if remaining_n > 10 then
      let sec_quantity := (remaining_n / (FERTILIZER_COMPOSITIONS "Urea").N) * 100
      (primary, quantity, ⟨"Urea", pyRound1 sec_quantity⟩)
    else
      (primary, quantity, ⟨"", 0⟩)
  else
    let primary := "Complete Fertilizer (14-14-14)"
    let quantity := ((n_deficit / 14) + (p_deficit / 14) + (k_deficit / 14)) * 100 / 3
    (primary, quantity, ⟨"", 0⟩)

/-- One stage of the application schedule dictionary of the source: timing
text, percentage text, rounded primary quantity, product name, and the
optional secondary sub dose attached to the stage. -/
structure Stage where
  timing : String
  percentage : String
  quantity : ℚ
  fertilizer : String
  secondary : Option Dose

/-- The two shapes of the application_schedule dictionary: the three stage
split shape (keys basal, first_top_dressing, second_top_dressing) and the two
stage standard shape (keys basal, top_dressing). -/
inductive Schedule where
  | split (basal firstTop secondTop : Stage)
  | standard (basal topDressing : Stage)

/-- True on the three stage shape. -/
def Schedule.isSplit : Schedule → Bool
  | .split _ _ _ => true
  | .standard _ _ => false

/-- The stages of a schedule in chronological order. -/
def Schedule.stages : Schedule → List Stage
  | .split b f s => [b, f, s]
  | .standard b t => [b, t]

/-- The soil_amendment entry added by calculate_fertilizer_recommendation. -/
structure Amendment where
  name : String
  quantity : ℚ
  unit : String
  application : String

/-- The return dictionary of get_fertilizer_quantities. The secondary slot is
always present there (empty name when unused); the fallback dictionary of the
orchestrator omits it, hence the Option. -/
structure Recommendation where
  primary : Dose
  secondary : Option Dose
  schedule : Schedule
  soil_amendment : Option Amendment

/-- Timing text of APPLICATION_TIMING for the basal stage. -/
def BASAL_TIMING : String := "Apply at planting time or before planting"

/-- Timing text of APPLICATION_TIMING for the first top dressing. -/
def FIRST_TOP_TIMING : String := "Apply 25-30 days after planting"

/-- Timing text of APPLICATION_TIMING for the second top dressing. -/
def SECOND_TOP_TIMING : String := "Apply 45-50 days after planting (before tasseling)"

/-- Embedding of get_fertilizer_quantities (fertilizer_quantity.py, lines 128
to 324): primary selection, secondary selection, rounding at the output
boundary, and construction of the application schedule. -/
def get_fertilizer_quantities (d : Deficit) (ft : String) : Recommendation :=
  let sel := selectFertilizer d ft
  let primary := sel.1
  let quantity := sel.2.1
  let sec := sel.2.2
  let schedule :=
    if pyIn "Split Application" ft ∨ quantity > 200 then
      let basal : Stage := ⟨BASAL_TIMING, "40%", pyRound1 (quantity * 0.4), primary, none⟩
      let firstTop : Stage := ⟨FIRST_TOP_TIMING, "30%", pyRound1 (quantity * 0.3), primary, none⟩
      let secondTop : Stage :=
        ⟨SECOND_TOP_TIMING, "30%", pyRound1 (quantity * 0.3), primary, none⟩
      if sec.name ≠ "" then
        if pyIn "Urea" sec.name ∨ pyIn "Ammonium" sec.name then
          Schedule.split basal
            { firstTop with secondary := some ⟨sec.name, pyRound1 (sec.quantity * 0.5)⟩ }
            { secondTop with secondary := some ⟨sec.name, pyRound1 (sec.quantity * 0.5)⟩ }
        else
          Schedule.split
            { basal with secondary := some ⟨sec.name, pyRound1 (sec.quantity * 0.7)⟩ }
            { firstTop with secondary := some ⟨sec.name, pyRound1 (sec.quantity * 0.3)⟩ }
            secondTop
      else
        Schedule.split basal firstTop secondTop
    else
      let basal : Stage := ⟨BASAL_TIMING, "70%", pyRound1 (quantity * 0.7), primary, none⟩
      let topDressing : Stage :=
        ⟨FIRST_TOP_TIMING, "30%", pyRound1 (quantity * 0.3), primary, none⟩
      if sec.name ≠ "" then
        if ¬ (pyIn "Urea" sec.name ∨ pyIn "Ammonium" sec.name) then
          Schedule.standard
            { basal with secondary := some ⟨sec.name, pyRound1 sec.quantity⟩ } topDressing
        else
          Schedule.standard basal
            { topDressing with secondary := some ⟨sec.name, pyRound1 sec.quantity⟩ }
      else
        Schedule.standard basal topDressing
  { primary := ⟨primary, pyRound1 quantity⟩
  , secondary := some sec
  , schedule := schedule
  , soil_amendment := none }

/-- The sensor_data dictionary as seen by calculate_fertilizer_recommendation:
each key may be absent, in which case the subscript access raises KeyError. -/
structure SensorData where
  N : Option ℚ
  P : Option ℚ
  K : Option ℚ
  ph : Option ℚ
  rainfall : Option ℚ

/-- Dictionary subscript access: returns the value or raises KeyError. -/
def getKey (o : Option ℚ) (k : String) : Except String ℚ :=
  match o with
  | some v => .ok v
  | none => .error ("KeyError: " ++ k)

/-- The body of the try block of calculate_fertilizer_recommendation
(fertilizer_quantity.py, lines 340 to 380): deficit calculation, soil
adjustment, quantity selection, and the pH driven soil amendment. An absent
dictionary key surfaces as an error. -/
def calcCore (sd : SensorData) (ft : String) : Except String Recommendation := do
  let n ← getKey sd.N "N"
  let p ← getKey sd.P "P"
  let k ← getKey sd.K "K"
  let deficit := calculate_npk_deficit_from_category n p k
  let ph ← getKey sd.ph "ph"
  let rainfall ← getKey sd.rainfall "rainfall"
  let adjusted := adjust_for_soil_conditions deficit ph rainfall
  let recs := get_fertilizer_quantities adjusted ft
  if ph < 5.5 then
    let lime_tons := pyRound1 ((6.5 - ph) * 1.5)
    if lime_tons > 0 then
      return { recs with soil_amendment := some ⟨"Agricultural Lime", lime_tons, "tons/ha",
        "Apply and incorporate into soil 2-4 weeks before planting"⟩ }
    else
      return recs
  else if ph > 7.5 then
    let sulfur_kg := pyRound1 ((ph - 6.5) * 300)
    if sulfur_kg > 0 then
      return { recs with soil_amendment := some ⟨"Agricultural Sulfur", sulfur_kg, "kg/ha",
        "Apply and incorporate into soil 4-6 weeks before planting"⟩ }
    else
      return recs
  else
    return recs

/-- The hardcoded dictionary returned by the except branch of
calculate_fertilizer_recommendation (fertilizer_quantity.py, lines 385 to
405). -/
def fallbackRecommendation : Recommendation :=
  { primary := ⟨"Complete Fertilizer (14-14-14)", 250⟩
  , secondary := none
  , schedule := Schedule.standard
      ⟨"Apply at planting time", "60%", 150, "Complete Fertilizer (14-14-14)", none⟩
      ⟨"Apply 30 days after planting", "40%", 100, "Complete Fertilizer (14-14-14)", none⟩
  , soil_amendment := none }

/-- Embedding of calculate_fertilizer_recommendation (fertilizer_quantity.py,
lines 326 to 405): runs the try block and, on any exception, returns the
hardcoded fallback dictionary as a normal result. -/
def calculate_fertilizer_recommendation (sd : SensorData) (ft : String) : Recommendation :=
  match calcCore sd ft with
  | .ok r => r
  | .error _ => fallbackRecommendation

/-- Division that raises on a zero divisor, as the Python slash does. -/
def qdiv (a b : ℚ) : Except String ℚ :=
  if b = 0 then .error "ZeroDivisionError" else .ok (a / b)

/-- The Python conditional expression c / x if x else 0 of the balanced
branch: the division only runs when the divisor is truthy. -/
def guardedDiv (c x : ℚ) : Except String ℚ :=
  if x ≠ 0 then qdiv c x else pure 0

/-- The Python conditional expression (1 / divisor) * 100 if divisor else 0 of
the balanced branch. -/
def guardedRecip (dv : ℚ) : Except String ℚ :=
  if dv ≠ 0 then do
    let u ← qdiv 1 dv
    pure (u * 100)
  else pure 0

/-- The quantity selection of get_fertilizer_quantities with every Python
division routed through the checked division qdiv, mirroring the guards of the
source (a falsy divisor short circuits the conditional expressions of the
balanced branch before any division happens). -/
def selectFertilizerChecked (d : Deficit) (ft : String) : Except String (String × ℚ × Dose) := do
  let n_deficit := d.N
  let p_deficit := d.P2O5
  let k_deficit := d.K2O
  if pyIn "NPK-rich" ft ∨ pyIn "Complete Fertilizer" ft then
    if n_deficit ≥ p_deficit ∧ n_deficit ≥ k_deficit then
      let primary := "Complete Fertilizer (16-16-16)"
      let comp := FERTILIZER_COMPOSITIONS primary
      let q0 ← qdiv p_deficit comp.P
      let quantity := q0 * 100
      let r0 ← qdiv (quantity * comp.N) 100
      let remaining_n := n_deficit - r0
      if remaining_n > 10 then
        let s0 ← qdiv remaining_n (FERTILIZER_COMPOSITIONS "Urea").N
        return (primary, quantity, ⟨"Urea", pyRound1 (s0 * 100)⟩)
      else
        return (primary, quantity, ⟨"", 0⟩)
    else
      let primary := "Complete Fertilizer (14-14-14)"
      let comp := FERTILIZER_COMPOSITIONS primary
      let t1 ← guardedDiv comp.N n_deficit
      let t2 ← guardedDiv comp.P p_deficit
      let t3 ← guardedDiv comp.K k_deficit
      let divisor := max t1 (max t2 t3)
      let quantity ← guardedRecip divisor
      return (primary, quantity, ⟨"", 0⟩)
  else if pyIn "Nitrogen-rich" ft then
    let primary := "Urea"
    let q0 ← qdiv n_deficit (FERTILIZER_COMPOSITIONS primary).N
    let quantity := q0 * 100
    if p_deficit > 10 then
      let s0 ← qdiv p_deficit (FERTILIZER_COMPOSITIONS "Single Superphosphate").P
      return (primary, quantity, ⟨"Single Superphosphate", pyRound1 (s0 * 100)⟩)
    else
      return (primary, quantity, ⟨"", 0⟩)
  else if pyIn "Phosphorus-rich" ft then
    let primary := "Triple Superphosphate"
    let q0 ← qdiv p_deficit (FERTILIZER_COMPOSITIONS primary).P
    let quantity := q0 * 100
    if n_deficit > 10 then
      let s0 ← qdiv n_deficit (FERTILIZER_COMPOSITIONS "Urea").N
      return (primary, quantity, ⟨"Urea", pyRound1 (s0 * 100)⟩)
    else
      return (primary, quantity, ⟨"", 0⟩)
  else if pyIn "Potassium-rich" ft then
    let primary := "Muriate of Potash (0-0-60)"
    let q0 ← qdiv k_deficit (FERTILIZER_COMPOSITIONS primary).K
    let quantity := q0 * 100
    if n_deficit > 10 then
      let s0 ← qdiv n_deficit (FERTILIZER_COMPOSITIONS "Urea").N
      return (primary, quantity, ⟨"Urea", pyRound1 (s0 * 100)⟩)
    else
      return (primary, quantity, ⟨"", 0⟩)
  else if pyIn "NP Fertilizer" ft then
    let primary := "Ammonium Phosphate (16-20-0)"
    let comp := FERTILIZER_COMPOSITIONS primary
    let q0 ← qdiv p_deficit comp.P
    let quantity := q0 * 100
    let r0 ← qdiv (quantity * comp.N) 100
    let remaining_n := n_deficit - r0
    if remaining_n > 10 then
      let s0 ← qdiv remaining_n (FERTILIZER_COMPOSITIONS "Urea").N
      return (primary, quantity, ⟨"Urea", pyRound1 (s0 * 100)⟩)
    else
      return (primary, quantity, ⟨"", 0⟩)
  else
    let primary := "Complete Fertilizer (14-14-14)"
    let a1 ← qdiv n_deficit 14
    let a2 ← qdiv p_deficit 14
    let a3 ← qdiv k_deficit 14
    let quantity ← qdiv ((a1 + a2 + a3) * 100) 3
    return (primary, quantity, ⟨"", 0⟩)

/-- Modelled from the spec: the requiresSplitApplication signal of section 4.3,
which the SoilConditionAdjuster is said to set when rainfall is below 500 so
that downstream scheduling uses the split application path. The source has no
such signal; this definition follows the wording of the spec for comparison
with the code. -/
def requiresSplitApplicationSpec (rainfall : ℚ) : Bool := rainfall < 500

/-- Embedding of categorize_npk_maize (data_processing.py, lines 4 to 26). The
Python function falls off the end for an unknown nutrient name and returns
None. -/
def categorize_npk_maize (value : ℚ) (nutrient : String) : Option String :=
  if nutrient = "N" then
    some (if value < 80 then "Low" else if value < 140 then "Medium" else "High")
  else if nutrient = "P" then
    some (if value < 15 then "Low" else if value < 30 then "Medium" else "High")
  else if nutrient = "K" then
    some (if value < 80 then "Low" else if value < 150 then "Medium" else "High")
  else none

/-- Embedding of categorize_ph_maize (data_processing.py, lines 28 to 38). -/
def categorize_ph_maize (ph_value : ℚ) : String :=
  if ph_value < 5.5 then "Very Acidic"
  else if ph_value < 6.0 then "Acidic"
  else if ph_value ≤ 7.0 then "Optimal"
  else if ph_value ≤ 7.5 then "Slightly Alkaline"
  else "Alkaline"

/-- Embedding of categorize_rainfall_maize (data_processing.py, lines 40
to 48). -/
def categorize_rainfall_maize (rainfall_value : ℚ) : String :=
  if rainfall_value < 500 then "Insufficient"
  else if rainfall_value < 750 then "Marginal"
  else if rainfall_value ≤ 1200 then "Optimal"
  else "Excessive"

theorem categorize_N (v : ℚ) : categorize_npk_maize v "N" =
    some (if v < 80 then "Low" else if v < 140 then "Medium" else "High") := rfl

theorem categorize_P (v : ℚ) : categorize_npk_maize v "P" =
    some (if v < 15 then "Low" else if v < 30 then "Medium" else "High") := rfl

theorem categorize_K (v : ℚ) : categorize_npk_maize v "K" =
    some (if v < 80 then "Low" else if v < 150 then "Medium" else "High") := rfl

/-- C4: for nonnegative readings, calculate_npk_deficit_from_category returns
the full target below the low threshold, half target between low and medium,
a tenth of the target from the medium threshold on; converts P and K deficits
to oxide form with the factors 2.29 and 1.20 while N stays elemental; and all
five output fields are nonnegative with the maintenance dose never zero
(indeed every field is strictly positive). -/
theorem deficit_calculator_spec (n p k : ℚ) (hn : 0 ≤ n) (hp : 0 ≤ p) (hk : 0 ≤ k) :
    (calculate_npk_deficit_from_category n p k).N =
      (if n < 80 then 120 else if n < 140 then 120 * 0.5 else 120 * 0.1) ∧
    (calculate_npk_deficit_from_category n p k).P =
      (if p < 15 then 60 else if p < 30 then 60 * 0.5 else 60 * 0.1) ∧
    (calculate_npk_deficit_from_category n p k).K =
      (if k < 80 then 60 else if k < 150 then 60 * 0.5 else 60 * 0.1) ∧
    (calculate_npk_deficit_from_category n p k).P2O5 =
      (calculate_npk_deficit_from_category n p k).P * 2.29 ∧
    (calculate_npk_deficit_from_category n p k).K2O =
      (calculate_npk_deficit_from_category n p k).K * 1.20 ∧
    0 < (calculate_npk_deficit_from_category n p k).N ∧
    0 < (calculate_npk_deficit_from_category n p k).P ∧
    0 < (calculate_npk_deficit_from_category n p k).P2O5 ∧
    0 < (calculate_npk_deficit_from_category n p k).K ∧
    0 < (calculate_npk_deficit_from_category n p k).K2O := by
  unfold calculate_npk_deficit_from_category nutrientDeficit P_TO_P2O5 K_TO_K2O
  refine ⟨rfl, rfl, rfl, rfl, rfl, ?_, ?_, ?_, ?_, ?_⟩ <;> dsimp only <;> split_ifs <;> norm_num

/-- Witness for deficit_calculator_spec at the concrete reading (50, 10, 40). -/
theorem deficit_calculator_spec_witness :
    (0 : ℚ) ≤ 50 ∧ (0 : ℚ) ≤ 10 ∧ (0 : ℚ) ≤ 40 ∧
    ((calculate_npk_deficit_from_category 50 10 40).N =
        (if (50 : ℚ) < 80 then 120 else if (50 : ℚ) < 140 then 120 * 0.5 else 120 * 0.1) ∧
      (calculate_npk_deficit_from_category 50 10 40).P =
        (if (10 : ℚ) < 15 then 60 else if (10 : ℚ) < 30 then 60 * 0.5 else 60 * 0.1) ∧
      (calculate_npk_deficit_from_category 50 10 40).K =
        (if (40 : ℚ) < 80 then 60 else if (40 : ℚ) < 150 then 60 * 0.5 else 60 * 0.1) ∧
      (calculate_npk_deficit_from_category 50 10 40).P2O5 =
        (calculate_npk_deficit_from_category 50 10 40).P * 2.29 ∧
      (calculate_npk_deficit_from_category 50 10 40).K2O =
        (calculate_npk_deficit_from_category 50 10 40).K * 1.20 ∧
      0 < (calculate_npk_deficit_from_category 50 10 40).N ∧
      0 < (calculate_npk_deficit_from_category 50 10 40).P ∧
      0 < (calculate_npk_deficit_from_category 50 10 40).P2O5 ∧
      0 < (calculate_npk_deficit_from_category 50 10 40).K ∧
      0 < (calculate_npk_deficit_from_category 50 10 40).K2O) :=
  ⟨by norm_num, by norm_num, by norm_num,
    deficit_calculator_spec 50 10 40 (by norm_num) (by norm_num) (by norm_num)⟩

/-- C5: adjust_for_soil_conditions multiplies P2O5 by 1.3 for acidic soil
below pH 5.5, by 1.25 above pH 7.5, multiplies N by 1.2 when rainfall exceeds
1200, compounds a pH adjustment with the rainfall adjustment when both hold,
and passes the deficits through unchanged for pH in the band 5.5 to 7.5 with
rainfall in the band 500 to 1200. -/
theorem soil_adjuster_spec (d : Deficit) (ph rainfall : ℚ) :
    (ph < 5.5 → (adjust_for_soil_conditions d ph rainfall).P2O5 = d.P2O5 * 1.3) ∧
    (ph > 7.5 → (adjust_for_soil_conditions d ph rainfall).P2O5 = d.P2O5 * 1.25) ∧
    (rainfall > 1200 → (adjust_for_soil_conditions d ph rainfall).N = d.N * 1.2) ∧
    ((ph < 5.5 ∨ ph > 7.5) → rainfall > 1200 →
      (adjust_for_soil_conditions d ph rainfall).N = d.N * 1.2 ∧
      (adjust_for_soil_conditions d ph rainfall).P2O5 =
        d.P2O5 * (if ph < 5.5 then 1.3 else 1.25)) ∧
    (5.5 ≤ ph → ph ≤ 7.5 → 500 ≤ rainfall → rainfall ≤ 1200 →
      adjust_for_soil_conditions d ph rainfall = d) := by
  unfold adjust_for_soil_conditions
  refine ⟨?_, ?_, ?_, ?_, ?_⟩
  · intro h; dsimp only; split_ifs <;> first | rfl | linarith
  · intro h; dsimp only; split_ifs <;> first | rfl | linarith
  · intro h; dsimp only; split_ifs <;> first | rfl | linarith
  · rintro (h | h) hr <;> dsimp only <;> split_ifs <;>
      first | (exact ⟨rfl, rfl⟩) | linarith
  · intro h1 h2 h3 h4; dsimp only; split_ifs <;> first | rfl | linarith

/-- Witness for soil_adjuster_spec at the concrete deficit (120, 60, 137.4,
60, 72) with pH 5 and rainfall 400: the acidic branch fires. -/
theorem soil_adjuster_spec_witness :
    (5 : ℚ) < 5.5 ∧
    (adjust_for_soil_conditions ⟨120, 60, 137.4, 60, 72⟩ 5 400).P2O5 = 137.4 * 1.3 :=
  ⟨by norm_num, (soil_adjuster_spec ⟨120, 60, 137.4, 60, 72⟩ 5 400).1 (by norm_num)⟩

/-- C8: the classification functions are boundary exact: N classifies Low
exactly below 80, Medium exactly on 80 to 139, High exactly from 140 on, and
analogously for P with thresholds 15 and 30 and K with thresholds 80 and 150;
and at the boundary points pH 5.5 is Acidic, 7.0 Optimal, 7.5 Slightly
Alkaline, rainfall 500 Marginal, 1200 Optimal and 1201 Excessive. -/
theorem classifier_boundaries (v : ℚ) :
    (categorize_npk_maize v "N" = some "Low" ↔ v < 80) ∧
    (categorize_npk_maize v "N" = some "Medium" ↔ 80 ≤ v ∧ v < 140) ∧
    (categorize_npk_maize v "N" = some "High" ↔ 140 ≤ v) ∧
    (categorize_npk_maize v "P" = some "Low" ↔ v < 15) ∧
    (categorize_npk_maize v "P" = some "Medium" ↔ 15 ≤ v ∧ v < 30) ∧
    (categorize_npk_maize v "P" = some "High" ↔ 30 ≤ v) ∧
    (categorize_npk_maize v "K" = some "Low" ↔ v < 80) ∧
    (categorize_npk_maize v "K" = some "Medium" ↔ 80 ≤ v ∧ v < 150) ∧
    (categorize_npk_maize v "K" = some "High" ↔ 150 ≤ v) ∧
    categorize_ph_maize 5.5 = "Acidic" ∧
    categorize_ph_maize 7 = "Optimal" ∧
    categorize_ph_maize 7.5 = "Slightly Alkaline" ∧
    categorize_rainfall_maize 500 = "Marginal" ∧
    categorize_rainfall_maize 1200 = "Optimal" ∧
    categorize_rainfall_maize 1201 = "Excessive" := by
  refine ⟨?_, ?_, ?_, ?_, ?_, ?_, ?_, ?_, ?_, ?_, ?_, ?_, ?_, ?_, ?_⟩
  · rw [categorize_N]; split_ifs with h1 h2 <;> simp_all
  · rw [categorize_N]; split_ifs with h1 h2 <;> simp_all <;> first | linarith | intro; linarith
  · rw [categorize_N]; split_ifs with h1 h2 <;> simp_all <;> linarith
  · rw [categorize_P]; split_ifs with h1 h2 <;> simp_all
  · rw [categorize_P]; split_ifs with h1 h2 <;> simp_all <;> first | linarith | intro; linarith
  · rw [categorize_P]; split_ifs with h1 h2 <;> simp_all <;> linarith
  · rw [categorize_K]; split_ifs with h1 h2 <;> simp_all
  · rw [categorize_K]; split_ifs with h1 h2 <;> simp_all <;> first | linarith | intro; linarith
  · rw [categorize_K]; split_ifs with h1 h2 <;> simp_all <;> linarith
  · unfold categorize_ph_maize; norm_num
  · unfold categorize_ph_maize; norm_num
  · unfold categorize_ph_maize; norm_num
  · unfold categorize_rainfall_maize; norm_num
  · unfold categorize_rainfall_maize; norm_num
  · unfold categorize_rainfall_maize; norm_num

theorem comp_urea : FERTILIZER_COMPOSITIONS "Urea" = ⟨46, 0, 0⟩ := rfl

theorem comp_ap : FERTILIZER_COMPOSITIONS "Ammonium Phosphate (16-20-0)" = ⟨16, 20, 0⟩ := rfl

theorem comp_14 : FERTILIZER_COMPOSITIONS "Complete Fertilizer (14-14-14)" = ⟨14, 14, 14⟩ := rfl

theorem comp_16 : FERTILIZER_COMPOSITIONS "Complete Fertilizer (16-16-16)" = ⟨16, 16, 16⟩ := rfl

theorem comp_mop : FERTILIZER_COMPOSITIONS "Muriate of Potash (0-0-60)" = ⟨0, 0, 60⟩ := rfl

theorem comp_ssp : FERTILIZER_COMPOSITIONS "Single Superphosphate" = ⟨0, 18, 0⟩ := rfl

theorem comp_tsp : FERTILIZER_COMPOSITIONS "Triple Superphosphate" = ⟨0, 46, 0⟩ := rfl

/-- C9: a category label matching no decision table entry routes to the
default branch: primary Complete Fertilizer (14-14-14) sized by the average
of the three per nutrient ratios, and no secondary fertilizer is emitted. -/
theorem default_branch_spec (d : Deficit) (ft : String)
    (h1 : pyIn "NPK-rich" ft = false) (h2 : pyIn "Complete Fertilizer" ft = false)
    (h3 : pyIn "Nitrogen-rich" ft = false) (h4 : pyIn "Phosphorus-rich" ft = false)
    (h5 : pyIn "Potassium-rich" ft = false) (h6 : pyIn "NP Fertilizer" ft = false) :
    selectFertilizer d ft =
      ("Complete Fertilizer (14-14-14)",
        ((d.N / 14) + (d.P2O5 / 14) + (d.K2O / 14)) * 100 / 3, ⟨"", 0⟩) ∧
    (get_fertilizer_quantities d ft).primary.name = "Complete Fertilizer (14-14-14)" ∧
    (get_fertilizer_quantities d ft).primary.quantity =
      pyRound1 (((d.N / 14) + (d.P2O5 / 14) + (d.K2O / 14)) * 100 / 3) ∧
    (get_fertilizer_quantities d ft).secondary = some ⟨"", 0⟩ := by
  have hsel : selectFertilizer d ft =
      ("Complete Fertilizer (14-14-14)",
        ((d.N / 14) + (d.P2O5 / 14) + (d.K2O / 14)) * 100 / 3, ⟨"", 0⟩) := by
    unfold selectFertilizer
    rw [if_neg (by simp [h1, h2]), if_neg (by simp [h3]), if_neg (by simp [h4]),
      if_neg (by simp [h5]), if_neg (by simp [h6])]
  refine ⟨hsel, ?_, ?_, ?_⟩ <;> unfold get_fertilizer_quantities <;> rw [hsel]

/-- Witness for default_branch_spec at the unrecognized label Organic with the
deficit (120, 60, 137.4, 60, 72). -/
theorem default_branch_spec_witness :
    pyIn "NPK-rich" "Organic" = false ∧ pyIn "Complete Fertilizer" "Organic" = false ∧
    pyIn "Nitrogen-rich" "Organic" = false ∧ pyIn "Phosphorus-rich" "Organic" = false ∧
    pyIn "Potassium-rich" "Organic" = false ∧ pyIn "NP Fertilizer" "Organic" = false ∧
    (selectFertilizer ⟨120, 60, 137.4, 60, 72⟩ "Organic" =
      ("Complete Fertilizer (14-14-14)",
        (((120 : ℚ) / 14) + ((137.4 : ℚ) / 14) + ((72 : ℚ) / 14)) * 100 / 3, ⟨"", 0⟩) ∧
    (get_fertilizer_quantities ⟨120, 60, 137.4, 60, 72⟩ "Organic").primary.name =
      "Complete Fertilizer (14-14-14)" ∧
    (get_fertilizer_quantities ⟨120, 60, 137.4, 60, 72⟩ "Organic").primary.quantity =
      pyRound1 ((((120 : ℚ) / 14) + ((137.4 : ℚ) / 14) + ((72 : ℚ) / 14)) * 100 / 3) ∧
    (get_fertilizer_quantities ⟨120, 60, 137.4, 60, 72⟩ "Organic").secondary =
      some ⟨"", 0⟩) :=
  ⟨by decide, by decide, by decide, by decide, by decide, by decide,
    default_branch_spec ⟨120, 60, 137.4, 60, 72⟩ "Organic"
      (by decide) (by decide) (by decide) (by decide) (by decide) (by decide)⟩

theorem qdiv_ok (a b : ℚ) (hb : b ≠ 0) : qdiv a b = Except.ok (a / b) := by
  unfold qdiv
  rw [if_neg hb]

theorem ok_bind {α β : Type} (v : α) (f : α → Except String β) :
    (Except.ok v >>= f : Except String β) = f v := rfl

theorem pure_ok {α : Type} (v : α) : (pure v : Except String α) = Except.ok v := rfl

theorem guardedDiv_ok (c x : ℚ) :
    guardedDiv c x = Except.ok (if x ≠ 0 then c / x else 0) := by
  unfold guardedDiv
  split_ifs with h
  · rw [qdiv_ok _ _ h]
  · rfl

theorem guardedRecip_ok (dv : ℚ) :
    guardedRecip dv = Except.ok (if dv ≠ 0 then 1 / dv * 100 else 0) := by
  unfold guardedRecip
  split_ifs with h
  · rw [qdiv_ok _ _ h]
    rfl
  · rfl

theorem guard_div_nonneg (c x : ℚ) (hc : 0 ≤ c) (hx : 0 ≤ x) :
    0 ≤ (if x ≠ 0 then c / x else 0) := by
  split_ifs with h
  · exact div_nonneg hc hx
  · exact le_refl 0

theorem recip_max_nonneg (t1 t2 t3 : ℚ) (h1 : 0 ≤ t1) :
    0 ≤ (if max t1 (max t2 t3) ≠ 0 then 1 / max t1 (max t2 t3) * 100 else 0) := by
  split_ifs with h
  · have hm : 0 ≤ max t1 (max t2 t3) := le_trans h1 (le_max_left _ _)
    have hpos : 0 < max t1 (max t2 t3) := lt_of_le_of_ne hm (Ne.symm h)
    positivity
  · exact le_refl 0

theorem selectFertilizerChecked_ok (d : Deficit) (ft : String) :
    selectFertilizerChecked d ft = Except.ok (selectFertilizer d ft) := by
  unfold selectFertilizerChecked selectFertilizer
  simp only [comp_urea, comp_ap, comp_14, comp_16, comp_mop, comp_ssp, comp_tsp]
  by_cases h1 : (pyIn "NPK-rich" ft ∨ pyIn "Complete Fertilizer" ft)
  · rw [if_pos h1, if_pos h1]
    by_cases h2 : (d.N ≥ d.P2O5 ∧ d.N ≥ d.K2O)
    · rw [if_pos h2, if_pos h2]
      simp only [qdiv_ok _ _ (show (16 : ℚ) ≠ 0 by norm_num),
        qdiv_ok _ _ (show (100 : ℚ) ≠ 0 by norm_num),
        qdiv_ok _ _ (show (46 : ℚ) ≠ 0 by norm_num), ok_bind]
      split_ifs <;> rfl
    · rw [if_neg h2, if_neg h2]
      simp only [guardedDiv_ok, guardedRecip_ok, ok_bind]
      rfl
  · rw [if_neg h1, if_neg h1]
    by_cases h3 : (pyIn "Nitrogen-rich" ft : Prop)
    · rw [if_pos h3, if_pos h3]
      simp only [qdiv_ok _ _ (show (46 : ℚ) ≠ 0 by norm_num),
        qdiv_ok _ _ (show (18 : ℚ) ≠ 0 by norm_num), ok_bind]
      split_ifs <;> rfl
    · rw [if_neg h3, if_neg h3]
      by_cases h4 : (pyIn "Phosphorus-rich" ft : Prop)
      · rw [if_pos h4, if_pos h4]
        simp only [qdiv_ok _ _ (show (46 : ℚ) ≠ 0 by norm_num), ok_bind]
        split_ifs <;> rfl
      · rw [if_neg h4, if_neg h4]
        by_cases h5 : (pyIn "Potassium-rich" ft : Prop)
        · rw [if_pos h5, if_pos h5]
          simp only [qdiv_ok _ _ (show (60 : ℚ) ≠ 0 by norm_num),
            qdiv_ok _ _ (show (46 : ℚ) ≠ 0 by norm_num), ok_bind]
          split_ifs <;> rfl
        · rw [if_neg h5, if_neg h5]
          by_cases h6 : (pyIn "NP Fertilizer" ft : Prop)
          · rw [if_pos h6, if_pos h6]
            simp only [qdiv_ok _ _ (show (20 : ℚ) ≠ 0 by norm_num),
              qdiv_ok _ _ (show (100 : ℚ) ≠ 0 by norm_num),
              qdiv_ok _ _ (show (46 : ℚ) ≠ 0 by norm_num), ok_bind]
            split_ifs <;> rfl
          · rw [if_neg h6, if_neg h6]
            simp only [qdiv_ok _ _ (show (14 : ℚ) ≠ 0 by norm_num),
              qdiv_ok _ _ (show (3 : ℚ) ≠ 0 by norm_num), ok_bind]
            rfl

theorem selectFertilizer_q_nonneg (d : Deficit) (ft : String) (hn : 0 ≤ d.N)
    (hp : 0 ≤ d.P2O5) (hk : 0 ≤ d.K2O) : 0 ≤ (selectFertilizer d ft).2.1 := by
  unfold selectFertilizer
  simp only [comp_urea, comp_ap, comp_14, comp_16, comp_mop, comp_ssp, comp_tsp]
  by_cases h1 : (pyIn "NPK-rich" ft ∨ pyIn "Complete Fertilizer" ft)
  · rw [if_pos h1]
    by_cases h2 : (d.N ≥ d.P2O5 ∧ d.N ≥ d.K2O)
    · rw [if_pos h2]
      split_ifs <;> dsimp only <;>
        exact mul_nonneg (div_nonneg hp (by norm_num)) (by norm_num)
    · rw [if_neg h2]
      dsimp only
      exact recip_max_nonneg _ _ _ (guard_div_nonneg _ _ (by norm_num) hn)
  · rw [if_neg h1]
    by_cases h3 : (pyIn "Nitrogen-rich" ft : Prop)
    · rw [if_pos h3]
      split_ifs <;> dsimp only <;>
        exact mul_nonneg (div_nonneg hn (by norm_num)) (by norm_num)
    · rw [if_neg h3]
      by_cases h4 : (pyIn "Phosphorus-rich" ft : Prop)
      · rw [if_pos h4]
        split_ifs <;> dsimp only <;>
          exact mul_nonneg (div_nonneg hp (by norm_num)) (by norm_num)
      · rw [if_neg h4]
        by_cases h5 : (pyIn "Potassium-rich" ft : Prop)
        · rw [if_pos h5]
          split_ifs <;> dsimp only <;>
            exact mul_nonneg (div_nonneg hk (by norm_num)) (by norm_num)
        · rw [if_neg h5]
          by_cases h6 : (pyIn "NP Fertilizer" ft : Prop)
          · rw [if_pos h6]
            split_ifs <;> dsimp only <;>
              exact mul_nonneg (div_nonneg hp (by norm_num)) (by norm_num)
          · rw [if_neg h6]
            dsimp only
            have hsum : 0 ≤ d.N / 14 + d.P2O5 / 14 + d.K2O / 14 := by positivity
            positivity

/-- C10: for nonnegative deficits and any category label, the quantity
selection performs no division by a zero divisor (the checked version, in
which every Python division raises on a zero divisor, returns ok with exactly
the value of the unchecked version, the guards of the balanced branch short
circuiting a zero divisor to quantity zero) and the selected primary quantity
is nonnegative. -/
theorem quantity_safe (d : Deficit) (ft : String) (hn : 0 ≤ d.N) (hp : 0 ≤ d.P2O5)
    (hk : 0 ≤ d.K2O) :
    selectFertilizerChecked d ft = Except.ok (selectFertilizer d ft) ∧
    0 ≤ (selectFertilizer d ft).2.1 :=
  ⟨selectFertilizerChecked_ok d ft, selectFertilizer_q_nonneg d ft hn hp hk⟩

/-- Witness for quantity_safe at the all zero deficit and an arbitrary
label. -/
theorem quantity_safe_witness :
    (0 : ℚ) ≤ 0 ∧
    (selectFertilizerChecked ⟨0, 0, 0, 0, 0⟩ "anything" =
        Except.ok (selectFertilizer ⟨0, 0, 0, 0, 0⟩ "anything") ∧
      0 ≤ (selectFertilizer ⟨0, 0, 0, 0, 0⟩ "anything").2.1) :=
  ⟨le_refl 0,
    quantity_safe ⟨0, 0, 0, 0, 0⟩ "anything" (le_refl 0) (le_refl 0) (le_refl 0)⟩

/-- C3: the top level recommendation function does not surface the internal
failure to its caller: on an input whose dictionary access raises (here a
missing N key), the try body fails with a KeyError, yet the function returns
the hardcoded fallback recommendation, indistinguishable from a normal
result. This contradicts the spec, which requires a typed failure with the
fallback substitution left to the caller. -/
theorem orchestrator_swallows_exception :
    calcCore ⟨none, none, none, none, none⟩ "Urea" = Except.error "KeyError: N" ∧
    calculate_fertilizer_recommendation ⟨none, none, none, none, none⟩ "Urea" =
      fallbackRecommendation := by
  constructor
  · rfl
  · rfl

theorem calcCore_some (n p k ph rain : ℚ) (ft : String) :
    calcCore ⟨some n, some p, some k, some ph, some rain⟩ ft =
      Except.ok (
        let recs := get_fertilizer_quantities
          (adjust_for_soil_conditions (calculate_npk_deficit_from_category n p k) ph rain) ft
        if ph < 5.5 then
          if pyRound1 ((6.5 - ph) * 1.5) > 0 then
            { recs with soil_amendment := some ⟨"Agricultural Lime", pyRound1 ((6.5 - ph) * 1.5),
              "tons/ha", "Apply and incorporate into soil 2-4 weeks before planting"⟩ }
          else recs
        else if ph > 7.5 then
          if pyRound1 ((ph - 6.5) * 300) > 0 then
            { recs with soil_amendment := some ⟨"Agricultural Sulfur", pyRound1 ((ph - 6.5) * 300),
              "kg/ha", "Apply and incorporate into soil 4-6 weeks before planting"⟩ }
          else recs
        else recs) := by
  unfold calcCore getKey
  dsimp only
  simp only [ok_bind]
  split_ifs <;> rfl

/-- C2 counterexample: in the 16-16-16 branch the primary quantity is not the
maximum of the per nutrient ratios. With adjusted deficits N 100, P2O5 50,
K2O 50 and the label NPK-rich, the code sizes by P2O5 alone, giving 312.5,
while the maximum ratio formula gives 625, and the primary dose supplies only
50 of the 100 units of the N deficit. -/
theorem blend_sizing_counterexample :
    (selectFertilizer ⟨100, 0, 50, 0, 50⟩ "NPK-rich").1 = "Complete Fertilizer (16-16-16)" ∧
    (selectFertilizer ⟨100, 0, 50, 0, 50⟩ "NPK-rich").2.1 = 312.5 ∧
    (312.5 : ℚ) ≠
      max (((100 : ℚ) / 16) * 100) (max (((50 : ℚ) / 16) * 100) (((50 : ℚ) / 16) * 100)) ∧
    (312.5 : ℚ) * 16 / 100 < 100 := by
  have hsel : (selectFertilizer ⟨100, 0, 50, 0, 50⟩ "NPK-rich").1 =
      "Complete Fertilizer (16-16-16)" ∧
      (selectFertilizer ⟨100, 0, 50, 0, 50⟩ "NPK-rich").2.1 = 312.5 := by
    unfold selectFertilizer
    rw [if_pos (Or.inl (by decide)), if_pos (by constructor <;> norm_num)]
    simp only [comp_16, comp_urea]
    rw [if_pos (by norm_num)]
    constructor
    · rfl
    · norm_num
  refine ⟨hsel.1, hsel.2, ?_, by norm_num⟩
  have hmax : max (((100 : ℚ) / 16) * 100) (max (((50 : ℚ) / 16) * 100) (((50 : ℚ) / 16) * 100))
      = 625 := by
    rw [max_self, max_eq_left (by norm_num)]
    norm_num
  rw [hmax]
  norm_num

/-- C2 amended: the multi nutrient blends are not sized by the maximum ratio.
The 16-16-16 branch (entered when the N deficit dominates both oxide
deficits) sizes by the P2O5 ratio alone; the balanced 14-14-14 branch sizes
by the reciprocal of the largest of the guarded ratios 14 over deficit, that
is by the smallest nonzero deficit; the 16-20-0 branch sizes by the P2O5
ratio alone. Nitrogen left uncovered by the primary dose is carried to a
secondary Urea dose only above the 10 kg per hectare threshold. -/
theorem blend_sizing_amended (d : Deficit) (ft : String) :
    ((pyIn "NPK-rich" ft ∨ pyIn "Complete Fertilizer" ft) →
      ((d.N ≥ d.P2O5 ∧ d.N ≥ d.K2O →
        (selectFertilizer d ft).1 = "Complete Fertilizer (16-16-16)" ∧
        (selectFertilizer d ft).2.1 = (d.P2O5 / 16) * 100) ∧
      (¬(d.N ≥ d.P2O5 ∧ d.N ≥ d.K2O) →
        (selectFertilizer d ft).1 = "Complete Fertilizer (14-14-14)" ∧
        (selectFertilizer d ft).2.1 =
          (if (max (if d.N ≠ 0 then 14 / d.N else 0)
              (max (if d.P2O5 ≠ 0 then 14 / d.P2O5 else 0)
                (if d.K2O ≠ 0 then 14 / d.K2O else 0))) ≠ 0 then
            (1 / (max (if d.N ≠ 0 then 14 / d.N else 0)
              (max (if d.P2O5 ≠ 0 then 14 / d.P2O5 else 0)
                (if d.K2O ≠ 0 then 14 / d.K2O else 0)))) * 100
          else 0)))) ∧
    (pyIn "NPK-rich" ft = false → pyIn "Complete Fertilizer" ft = false →
      pyIn "Nitrogen-rich" ft = false → pyIn "Phosphorus-rich" ft = false →
      pyIn "Potassium-rich" ft = false → pyIn "NP Fertilizer" ft = true →
        (selectFertilizer d ft).1 = "Ammonium Phosphate (16-20-0)" ∧
        (selectFertilizer d ft).2.1 = (d.P2O5 / 20) * 100) := by
  unfold selectFertilizer
  simp only [comp_urea, comp_ap, comp_14, comp_16, comp_mop, comp_ssp, comp_tsp]
  refine ⟨fun h1 => ⟨fun h2 => ?_, fun h2 => ?_⟩, fun k1 k2 k3 k4 k5 k6 => ?_⟩
  · rw [if_pos h1, if_pos h2]
    constructor <;> split_ifs <;> rfl
  · rw [if_pos h1, if_neg h2]
    exact ⟨rfl, rfl⟩
  · rw [if_neg (by simp [k1, k2]), if_neg (by simp [k3]), if_neg (by simp [k4]),
      if_neg (by simp [k5]), if_pos (by simp [k6])]
    constructor <;> split_ifs <;> rfl

/-- Witness for blend_sizing_amended at the deficits N 100, P2O5 50, K2O 50
with the label NPK-rich: the dominant N branch fires and sizes by P2O5. -/
theorem blend_sizing_amended_witness :
    ((100 : ℚ) ≥ 50 ∧ (100 : ℚ) ≥ 50) ∧
    ((selectFertilizer ⟨100, 0, 50, 0, 50⟩ "NPK-rich").1 = "Complete Fertilizer (16-16-16)" ∧
      (selectFertilizer ⟨100, 0, 50, 0, 50⟩ "NPK-rich").2.1 = ((50 : ℚ) / 16) * 100) :=
  ⟨⟨by norm_num, by norm_num⟩,
    ((blend_sizing_amended ⟨100, 0, 50, 0, 50⟩ "NPK-rich").1
      (Or.inl (by decide))).1 ⟨by norm_num, by norm_num⟩⟩

/-- C7: every schedule built by get_fertilizer_quantities has stage
percentages 40, 30, 30 or 70, 30, summing to 100 before rounding, and the sum
of the rounded stage quantities differs from the stated (rounded) total
primary quantity by at most 0.2 kg per hectare. -/
theorem schedule_sum_spec (d : Deficit) (ft : String) :
    ((((get_fertilizer_quantities d ft).schedule.stages.map Stage.percentage) =
        ["40%", "30%", "30%"] ∧ (40 : ℚ) + 30 + 30 = 100) ∨
      (((get_fertilizer_quantities d ft).schedule.stages.map Stage.percentage) =
        ["70%", "30%"] ∧ (70 : ℚ) + 30 = 100)) ∧
    |((get_fertilizer_quantities d ft).schedule.stages.map Stage.quantity).sum -
      (get_fertilizer_quantities d ft).primary.quantity| ≤ 1/5 := by
  unfold get_fertilizer_quantities
  generalize selectFertilizer d ft = sel
  obtain ⟨primary, q, sec⟩ := sel
  dsimp only
  split_ifs
  all_goals
    first
      | refine ⟨Or.inl ⟨rfl, by norm_num⟩, ?_⟩
      | refine ⟨Or.inr ⟨rfl, by norm_num⟩, ?_⟩
  all_goals
    simp only [Schedule.stages, List.map_cons, List.map_nil, List.sum_cons, List.sum_nil]
  all_goals
    have hb4 := abs_pyRound1_sub (q * 0.4)
    have hb3 := abs_pyRound1_sub (q * 0.3)
    have hb7 := abs_pyRound1_sub (q * 0.7)
    have hb0 := abs_pyRound1_sub q
    rw [abs_le] at hb4 hb3 hb7 hb0 ⊢
    constructor <;> linarith

/-- C6 counterexample: the spec says the split schedule is triggered by the
requiresSplitApplication signal that the soil condition stage sets when
rainfall is below 500. At rainfall 400 (signal set), pH 6.5, readings 150,
40, 160 and the label Balanced Maintenance Fertilizer, the computed quantity
is about 78.4, yet the code produces the standard two stage schedule: the
source never consults rainfall for scheduling, only the label text and the
200 kg threshold. -/
theorem split_signal_counterexample :
    requiresSplitApplicationSpec 400 = true ∧
    (calculate_fertilizer_recommendation ⟨some 150, some 40, some 160, some 6.5, some 400⟩
        "Balanced Maintenance Fertilizer").schedule.isSplit = false := by
  constructor
  · simp only [requiresSplitApplicationSpec, decide_eq_true_eq]
    norm_num
  · unfold calculate_fertilizer_recommendation
    rw [calcCore_some]
    dsimp only
    rw [if_neg (by norm_num : ¬(6.5 : ℚ) < 5.5), if_neg (by norm_num : ¬(6.5 : ℚ) > 7.5)]
    have hdef : calculate_npk_deficit_from_category 150 40 160 = ⟨12, 6, 13.74, 6, 7.2⟩ := by
      unfold calculate_npk_deficit_from_category nutrientDeficit P_TO_P2O5 K_TO_K2O
      rw [if_neg (by norm_num : ¬(150 : ℚ) < 80), if_neg (by norm_num : ¬(150 : ℚ) < 140),
        if_neg (by norm_num : ¬(40 : ℚ) < 15), if_neg (by norm_num : ¬(40 : ℚ) < 30),
        if_neg (by norm_num : ¬(160 : ℚ) < 80), if_neg (by norm_num : ¬(160 : ℚ) < 150)]
      norm_num [Deficit.mk.injEq]
    rw [hdef]
    have hadj : adjust_for_soil_conditions ⟨12, 6, 13.74, 6, 7.2⟩ 6.5 400 =
        ⟨12, 6, 13.74, 6, 7.2⟩ := by
      unfold adjust_for_soil_conditions
      rw [if_neg (by norm_num : ¬(6.5 : ℚ) < 5.5), if_neg (by norm_num : ¬(6.5 : ℚ) > 7.5),
        if_neg (by norm_num : ¬(400 : ℚ) > 1200)]
    rw [hadj]
    have hsel : selectFertilizer ⟨12, 6, 13.74, 6, 7.2⟩ "Balanced Maintenance Fertilizer" =
        ("Complete Fertilizer (14-14-14)",
          ((12 : ℚ) / 14 + (13.74 : ℚ) / 14 + (7.2 : ℚ) / 14) * 100 / 3, ⟨"", 0⟩) := by
      unfold selectFertilizer
      rw [if_neg (by decide), if_neg (by decide), if_neg (by decide), if_neg (by decide),
        if_neg (by decide)]
    unfold get_fertilizer_quantities
    rw [hsel]
    dsimp only
    rw [if_neg ?hsplit]
    case hsplit =>
      rintro (h | h)
      · exact absurd h (by decide)
      · norm_num at h
    rw [if_neg (by simp)]
    rfl

/-- C6 amended: the schedule is the three stage split shape (40, 30, 30
percent) exactly when the category label contains the substring Split
Application or the computed primary quantity exceeds 200 kg per hectare (the
soil condition stage emits no split signal), and otherwise the two stage
standard shape (70, 30 percent); each stage quantity is the rounding of the
unrounded total times the stage fraction. -/
theorem schedule_shape_amended (d : Deficit) (ft : String) :
    ((get_fertilizer_quantities d ft).schedule.isSplit = true ↔
      (pyIn "Split Application" ft ∨ (selectFertilizer d ft).2.1 > 200)) ∧
    ((get_fertilizer_quantities d ft).schedule.isSplit = true →
      (get_fertilizer_quantities d ft).schedule.stages.map Stage.percentage =
        ["40%", "30%", "30%"] ∧
      (get_fertilizer_quantities d ft).schedule.stages.map Stage.quantity =
        [pyRound1 ((selectFertilizer d ft).2.1 * 0.4),
          pyRound1 ((selectFertilizer d ft).2.1 * 0.3),
          pyRound1 ((selectFertilizer d ft).2.1 * 0.3)]) ∧
    ((get_fertilizer_quantities d ft).schedule.isSplit = false →
      (get_fertilizer_quantities d ft).schedule.stages.map Stage.percentage = ["70%", "30%"] ∧
      (get_fertilizer_quantities d ft).schedule.stages.map Stage.quantity =
        [pyRound1 ((selectFertilizer d ft).2.1 * 0.7),
          pyRound1 ((selectFertilizer d ft).2.1 * 0.3)]) := by
  unfold get_fertilizer_quantities
  generalize selectFertilizer d ft = sel
  obtain ⟨primary, q, sec⟩ := sel
  dsimp only
  split_ifs with hc
  all_goals refine ⟨?_, ?_, ?_⟩
  all_goals
    first
      | (simp only [Schedule.isSplit]; exact iff_of_true trivial hc)
      | (simp only [Schedule.isSplit]; exact iff_of_false (by simp) hc)
      | (intro hs; exact ⟨rfl, rfl⟩)
      | (intro hs; exact absurd hs (by simp [Schedule.isSplit]))

/-- Witness for schedule_shape_amended: a label containing Split Application
forces the split shape even at zero quantity. -/
theorem schedule_shape_amended_witness :
    (get_fertilizer_quantities ⟨0, 0, 0, 0, 0⟩ "Split Application").schedule.isSplit = true :=
  (schedule_shape_amended ⟨0, 0, 0, 0, 0⟩ "Split Application").1.mpr (Or.inl (by decide))

theorem scenarioA_deficit :
    calculate_npk_deficit_from_category 50 10 40 = ⟨120, 60, 137.4, 60, 72⟩ := by
  unfold calculate_npk_deficit_from_category nutrientDeficit P_TO_P2O5 K_TO_K2O
  rw [if_pos (by norm_num : (50 : ℚ) < 80), if_pos (by norm_num : (10 : ℚ) < 15),
    if_pos (by norm_num : (40 : ℚ) < 80)]
  norm_num [Deficit.mk.injEq]

theorem scenarioA_adjust :
    adjust_for_soil_conditions ⟨120, 60, 137.4, 60, 72⟩ 5 400 = ⟨120, 60, 178.62, 60, 72⟩ := by
  unfold adjust_for_soil_conditions
  rw [if_pos (by norm_num : (5 : ℚ) < 5.5), if_neg (by norm_num : ¬(400 : ℚ) > 1200)]
  norm_num [Deficit.mk.injEq]

theorem scenarioA_select :
    selectFertilizer ⟨120, 60, 178.62, 60, 72⟩ "NPK-rich Complete Fertilizer" =
      ("Complete Fertilizer (14-14-14)", 3600 / 7, ⟨"", 0⟩) := by
  unfold selectFertilizer
  dsimp only
  rw [if_pos (Or.inl (by decide)),
    if_neg (by intro hcon; exact absurd hcon.1 (by norm_num : ¬(120 : ℚ) ≥ 178.62))]
  simp only [comp_14]
  rw [if_pos (by norm_num : (120 : ℚ) ≠ 0), if_pos (by norm_num : (178.62 : ℚ) ≠ 0),
    if_pos (by norm_num : (72 : ℚ) ≠ 0)]
  rw [max_eq_right (by norm_num : (14 : ℚ) / 178.62 ≤ 14 / 72),
    max_eq_right (by norm_num : (14 : ℚ) / 120 ≤ 14 / 72)]
  rw [if_pos (by norm_num : (14 : ℚ) / 72 ≠ 0)]
  norm_num [Prod.mk.injEq]

theorem scenarioA_eval :
    calculate_fertilizer_recommendation ⟨some 50, some 10, some 40, some 5, some 400⟩
        "NPK-rich Complete Fertilizer" =
      { primary := ⟨"Complete Fertilizer (14-14-14)", 514.3⟩
      , secondary := some ⟨"", 0⟩
      , schedule := Schedule.split
          ⟨BASAL_TIMING, "40%", 205.7, "Complete Fertilizer (14-14-14)", none⟩
          ⟨FIRST_TOP_TIMING, "30%", 154.3, "Complete Fertilizer (14-14-14)", none⟩
          ⟨SECOND_TOP_TIMING, "30%", 154.3, "Complete Fertilizer (14-14-14)", none⟩
      , soil_amendment := some ⟨"Agricultural Lime", 2.2, "tons/ha",
          "Apply and incorporate into soil 2-4 weeks before planting"⟩ } := by
  unfold calculate_fertilizer_recommendation
  rw [calcCore_some]
  dsimp only
  rw [scenarioA_deficit, scenarioA_adjust]
  have hlime : pyRound1 ((6.5 - (5 : ℚ)) * 1.5) = 2.2 :=
    pyRound1_tie_even _ 11 _ (by norm_num) (by norm_num)
  rw [if_pos (by norm_num : (5 : ℚ) < 5.5), hlime, if_pos (by norm_num : (2.2 : ℚ) > 0)]
  unfold get_fertilizer_quantities
  rw [scenarioA_select]
  dsimp only
  rw [if_pos (Or.inr (by norm_num : (3600 / 7 : ℚ) > 200)), if_neg (by simp)]
  have h1 : pyRound1 (3600 / 7 : ℚ) = 514.3 :=
    pyRound1_eq_of _ 5143 _ (by norm_num) (by norm_num) (by norm_num)
  have h2 : pyRound1 ((3600 / 7 : ℚ) * 0.4) = 205.7 :=
    pyRound1_eq_of _ 2057 _ (by norm_num) (by norm_num) (by norm_num)
  have h3 : pyRound1 ((3600 / 7 : ℚ) * 0.3) = 154.3 :=
    pyRound1_eq_of _ 1543 _ (by norm_num) (by norm_num) (by norm_num)
  rw [h1, h2, h3]

/-- C1 counterexample: on Scenario A (N 50, P 10, K 40, pH 5, rainfall 400,
label NPK-rich Complete Fertilizer) the engine does not return the 16-16-16
primary of 1116.4 kg per hectare claimed by the spec, and the lime amendment
is not 2.3 tons per hectare: since the N deficit 120 does not reach the
adjusted P2O5 deficit 178.62, the balanced branch fires instead, and the
Python round half to even turns 2.25 into 2.2. -/
theorem scenarioA_counterexample :
    (calculate_fertilizer_recommendation ⟨some 50, some 10, some 40, some 5, some 400⟩
        "NPK-rich Complete Fertilizer").primary.name ≠ "Complete Fertilizer (16-16-16)" ∧
    (calculate_fertilizer_recommendation ⟨some 50, some 10, some 40, some 5, some 400⟩
        "NPK-rich Complete Fertilizer").soil_amendment ≠
      some ⟨"Agricultural Lime", 2.3, "tons/ha",
        "Apply and incorporate into soil 2-4 weeks before planting"⟩ := by
  rw [scenarioA_eval]
  constructor
  · intro h
    exact absurd h (by decide)
  · intro h
    have h2 := congrArg Amendment.quantity (Option.some.inj h)
    norm_num at h2

/-- C1 amended: on Scenario A all three nutrients classify Low, the deficits
are N 120, P2O5 137.4, K2O 72, pH below 5.5 adjusts P2O5 to 178.62; since the
N deficit does not dominate the adjusted P2O5 deficit, the selector takes the
balanced branch: primary Complete Fertilizer (14-14-14) sized by the smallest
deficit ratio, quantity 3600 over 7, about 514.3 kg per hectare rounded; the
schedule is split because the quantity exceeds 200; and the lime amendment is
2.2 tons per hectare (round half to even of 2.25). -/
theorem scenarioA_amended :
    categorize_npk_maize 50 "N" = some "Low" ∧
    categorize_npk_maize 10 "P" = some "Low" ∧
    categorize_npk_maize 40 "K" = some "Low" ∧
    calculate_npk_deficit_from_category 50 10 40 = ⟨120, 60, 137.4, 60, 72⟩ ∧
    adjust_for_soil_conditions ⟨120, 60, 137.4, 60, 72⟩ 5 400 = ⟨120, 60, 178.62, 60, 72⟩ ∧
    selectFertilizer ⟨120, 60, 178.62, 60, 72⟩ "NPK-rich Complete Fertilizer" =
      ("Complete Fertilizer (14-14-14)", 3600 / 7, ⟨"", 0⟩) ∧
    (3600 / 7 : ℚ) > 200 ∧
    calculate_fertilizer_recommendation ⟨some 50, some 10, some 40, some 5, some 400⟩
        "NPK-rich Complete Fertilizer" =
      { primary := ⟨"Complete Fertilizer (14-14-14)", 514.3⟩
      , secondary := some ⟨"", 0⟩
      , schedule := Schedule.split
          ⟨BASAL_TIMING, "40%", 205.7, "Complete Fertilizer (14-14-14)", none⟩
          ⟨FIRST_TOP_TIMING, "30%", 154.3, "Complete Fertilizer (14-14-14)", none⟩
          ⟨SECOND_TOP_TIMING, "30%", 154.3, "Complete Fertilizer (14-14-14)", none⟩
      , soil_amendment := some ⟨"Agricultural Lime", 2.2, "tons/ha",
          "Apply and incorporate into soil 2-4 weeks before planting"⟩ } := by
  refine ⟨?_, ?_, ?_, scenarioA_deficit, scenarioA_adjust, scenarioA_select,
    by norm_num, scenarioA_eval⟩
  · rw [categorize_N, if_pos (by norm_num : (50 : ℚ) < 80)]
  · rw [categorize_P, if_pos (by norm_num : (10 : ℚ) < 15)]
  · rw [categorize_K, if_pos (by norm_num : (40 : ℚ) < 80)]

end AgriThesis
